import Mathlib

/-!
Shallow embedding of `streamlit_app.py` from the repository
`SaatvikSS/Drug_Repurposing_Using_KGE`.

The program is a Streamlit dashboard.  Its observable logic is:

* a Selection Resolver (`final_selection = disease_selection + model_selection`,
  line 172 of `streamlit_app.py`);
* an Artifact Loader (`pd.read_csv`, `open(...)` on paths built from the
  composite key, lines 173, 196, 210, 235);
* a Performance Filter
  (`performance_file[performance_file["final_selection"] == final_selection]`,
  line 211);
* a chat handler around a remote text-generation gateway
  (`get_gemini_response`, lines 24-34, and the Send button handler,
  lines 144-157).

External collaborators are modelled explicitly:

* the filesystem / pandas parser as an environment mapping paths to
  already-parsed artifacts (`Env`);
* Python text-mode file handles as a content string plus a read position
  (`TextIOWrapper`): `read()` returns the content from the current position
  and leaves the position at the end of the file;
* Streamlit's `st.download_button` marshalling of a text-mode file handle
  (`marshallTextFile`): Streamlit calls `read()` on an `io.TextIOWrapper`
  payload at its current position and does not rewind it first (unlike its
  handling of `BytesIO` / `BufferedReader` payloads, which it seeks to 0);
* the Gemini gateway as a function `String → Except String String`, where
  `Except.error` models `generate_content` (or `.text`) raising.

Python exceptions are modelled with `Except`: a handler that does not catch
has an `Except` result type and a raising call aborts it; the one
`try/except` in the source (lines 25-34) appears as the `match` on the
gateway's result inside `get_gemini_response`, which is why the chat handler
is a total function into ordinary results.
-/

/-- A UI effect emitted while a handler runs (`st.error`, `st.markdown`). -/
inductive UIEvent
  | error (msg : String)
  | markdownHtml (html : String)
deriving DecidableEq, Repr

/-- A parsed CSV table as produced by `pd.read_csv(..., sep=",")`: named
columns and ordered rows.  The recommendations claims treat it as opaque. -/
structure DataFrame where
  columns : List String
  rows : List (List String)
deriving DecidableEq, Repr

/-- Serialization performed by `ranking_file.to_csv(index=False)` (line 181):
header row then data rows, comma-separated, one trailing newline each. -/
def DataFrame.to_csv (df : DataFrame) : String :=
  String.join ((String.intercalate "," df.columns :: df.rows.map (String.intercalate ",")).map (fun line => line ++ "\n"))

/-- One row of `embedding_models/performance_metrics.csv` (read with
`sep=";"`, line 210), with the columns the program uses: `final_selection`,
`Measure`, `Value`. -/
structure PerfRow where
  final_selection : String
  Measure : String
  Value : String
deriving DecidableEq, Repr

/-- The read-only artifact store: paths to comma-separated CSV artifacts
(`pd.read_csv(path, sep=",")` results), paths to the semicolon-separated
performance file (`pd.read_csv(path, sep=";")` results), and paths to HTML
documents (`open(path, "r", encoding="utf-8").read()` contents).  `none`
means the file is absent, so the corresponding load raises. -/
structure Env where
  csvFiles : String → Option DataFrame
  perfFiles : String → Option (List PerfRow)
  htmlFiles : String → Option String

/-- A Python text-mode file handle: full file content plus current read
position. -/
structure TextIOWrapper where
  content : String
  pos : Nat
deriving DecidableEq, Repr

/-- Calling `.read()` on a text handle returns the content from the current
position onward and moves the position to the end of the file. -/
def TextIOWrapper.read (h : TextIOWrapper) : String × TextIOWrapper :=
  (h.content.drop h.pos, { h with pos := h.content.length })

/-- Streamlit marshalling of an `io.TextIOWrapper` passed as the `data`
argument of `st.download_button`: Streamlit calls `data.read()` on it at its
current position without seeking back to 0 (only `BytesIO`,
`BufferedReader` and `RawIOBase` payloads are rewound), so the served bytes
are whatever remains after the handle's position. -/
def marshallTextFile (h : TextIOWrapper) : String :=
  (TextIOWrapper.read h).1

/-- The `pd.read_csv(path, sep=",")` call: returns the parsed table, or
raises `FileNotFoundError` when the artifact is absent; nothing in the
program catches it. -/
def pdReadCsv (env : Env) (path : String) : Except String DataFrame :=
  match env.csvFiles path with
  | some df => Except.ok df
  | none => Except.error ("FileNotFoundError: " ++ path)

/-- The `pd.read_csv(path, sep=";")` call for the performance file. -/
def pdReadCsvSemicolon (env : Env) (path : String) : Except String (List PerfRow) :=
  match env.perfFiles path with
  | some t => Except.ok t
  | none => Except.error ("FileNotFoundError: " ++ path)

/-- The `open(path, "r", encoding="utf-8")` call: yields a fresh text handle
at position 0, or raises `FileNotFoundError` when the file is absent. -/
def openTextFile (env : Env) (path : String) : Except String TextIOWrapper :=
  match env.htmlFiles path with
  | some c => Except.ok { content := c, pos := 0 }
  | none => Except.error ("FileNotFoundError: " ++ path)

/-- The Selection Resolver (line 172):
`final_selection = disease_selection + model_selection`, plain string
concatenation with no delimiter and no validation. -/
def final_selection (disease_selection model_selection : String) : String :=
  disease_selection ++ model_selection

/-- The Performance Filter (line 211):
`performance_file[performance_file["final_selection"] == final_selection]`,
pandas boolean-mask row selection by string equality on the
`final_selection` column, preserving row order. -/
def performanceFilter (performance_file : List PerfRow) (key : String) : List PerfRow :=
  performance_file.filter (fun row => row.final_selection == key)

/-- The observable effects of one run of the `Get Recommendations` button
handler (lines 170-222): the CSV path read, the table shown, both download
buttons (name and payload), the embedded HTML documents, and the filtered
performance rows together with the two columns the caller renders. -/
structure RecEffects where
  csvPathRead : String
  ranking_file : DataFrame
  downloadCsvName : String
  downloadCsvData : String
  graphPathRead : String
  embeds : List String
  downloadHtmlName : String
  downloadHtmlData : String
  filtered_data : List PerfRow
  perfTableShown : List (String × String)
deriving DecidableEq, Repr

/-- The `Get Recommendations` button handler (lines 170-222), with reads in
source order: ranking CSV (line 173), graph HTML open and read
(lines 196-197), performance CSV (line 210).  The HTML download button
(lines 202-207) passes the handle `HtmlFile` itself — already consumed by
the `read()` of line 197 — as its payload. -/
def getRecommendationsHandler (env : Env) (disease_selection model_selection : String) :
    Except String RecEffects := do
  let key := final_selection disease_selection model_selection
  let ranking_file ← pdReadCsv env ("embedding_models/" ++ key ++ ".csv")
  let csv := ranking_file.to_csv
  let h0 ← openTextFile env ("graphs/knowledge_graph_" ++ disease_selection ++ ".html")
  let (source_code, HtmlFile) := TextIOWrapper.read h0
  let performance_file ← pdReadCsvSemicolon env "embedding_models/performance_metrics.csv"
  let filtered_data := performanceFilter performance_file key
  pure {
    csvPathRead := "embedding_models/" ++ key ++ ".csv",
    ranking_file := ranking_file,
    downloadCsvName := key ++ "_recommendations.csv",
    downloadCsvData := csv,
    graphPathRead := "graphs/knowledge_graph_" ++ disease_selection ++ ".html",
    embeds := [source_code],
    downloadHtmlName := disease_selection ++ "_knowledge_graph.html",
    downloadHtmlData := marshallTextFile HtmlFile,
    filtered_data := filtered_data,
    perfTableShown := filtered_data.map (fun row => (row.Measure, row.Value)) }

/-- The observable effects of the `Explore Knowledge Graph` branch
(lines 224-246). -/
structure ExploreEffects where
  graphPathRead : String
  embeds : List String
  downloadHtmlName : String
  downloadHtmlData : String
deriving DecidableEq, Repr

/-- The `Explore Knowledge Graph` branch (lines 229-246): open the graph
file for the selected disease, read it, embed the contents once via
`components.html`, then offer a download whose payload is the
already-consumed handle `HtmlFile`. -/
def exploreGraphHandler (env : Env) (disease_selection : String) :
    Except String ExploreEffects := do
  let h0 ← openTextFile env ("graphs/knowledge_graph_" ++ disease_selection ++ ".html")
  let (source_code, HtmlFile) := TextIOWrapper.read h0
  pure {
    graphPathRead := "graphs/knowledge_graph_" ++ disease_selection ++ ".html",
    embeds := [source_code],
    downloadHtmlName := disease_selection ++ "_knowledge_graph.html",
    downloadHtmlData := marshallTextFile HtmlFile }

/-- Result of `get_gemini_response` together with its observable effects:
the returned value (`none` models Python `None`), the `st.error` events it
emitted, and the prompts actually sent to the gateway. -/
structure GeminiResult where
  response : Option String
  events : List UIEvent
  calls : List String
deriving DecidableEq, Repr

/-- The function `get_gemini_response` (lines 24-34): when the input is
truthy (non-empty) it calls the gateway inside `try/except`; any exception
is caught, reported with `st.error("Error communicating with the Google
Gemini API: ...")`, and turned into `None`; an empty input returns `None`
without calling the gateway. -/
def get_gemini_response (text_model : String → Except String String) (input_text : String) :
    GeminiResult :=
  if input_text ≠ "" then
    match text_model input_text with
    | Except.ok t => { response := some t, events := [], calls := [input_text] }
    | Except.error e =>
        { response := none,
          events := [UIEvent.error ("Error communicating with the Google Gemini API: " ++ e)],
          calls := [input_text] }
  else { response := none, events := [], calls := [] }

/-- The per-session state: `st.session_state["chat_history"]`, absent
(`none`) until the first successful chat interaction initializes it. -/
structure ChatState where
  chat_history : Option (List (String × String))
deriving DecidableEq, Repr

/-- A fresh session: no `chat_history` key in `st.session_state`. -/
def initial_session : ChatState :=
  { chat_history := none }

/-- Result of one run of the Send button handler: the updated session state,
the UI events emitted, and the prompts sent to the gateway. -/
structure ChatResult where
  state : ChatState
  events : List UIEvent
  gatewayCalls : List String
deriving DecidableEq, Repr

/-- The Send button handler (lines 144-157).  Empty input: only the error
`Please enter a question.` and no gateway call.  Truthy response (Python
`if response:` — neither `None` nor the empty string): render the response
markdown, initialize `chat_history` to `[]` when absent, then append
`("You", input)` and `("Bot", response)`.  Falsy response: only the error
`Failed to get a response from the chatbot`; the state is unchanged. -/
def sendHandler (text_model : String → Except String String) (input_text : String)
    (s : ChatState) : ChatResult :=
  if input_text ≠ "" then
    let g := get_gemini_response text_model input_text
    match g.response with
    | some r =>
        if r ≠ "" then
          let history := (s.chat_history.getD []) ++ [("You", input_text), ("Bot", r)]
          { state := { chat_history := some history },
            events := g.events ++
              [UIEvent.markdownHtml ("<div class=\"chatbot-response\">" ++ r ++ "</div>")],
            gatewayCalls := g.calls }
        else
          { state := s,
            events := g.events ++ [UIEvent.error "Failed to get a response from the chatbot"],
            gatewayCalls := g.calls }
    | none =>
        { state := s,
          events := g.events ++ [UIEvent.error "Failed to get a response from the chatbot"],
          gatewayCalls := g.calls }
  else
    { state := s, events := [UIEvent.error "Please enter a question."], gatewayCalls := [] }

/-- One chat turn of a session: the gateway behaviour at that moment and the
text typed by the user. -/
def ChatTurn : Type :=
  (String → Except String String) × String

/-- Running a sequence of Send interactions over the session state. -/
def runChat (turns : List ChatTurn) (s : ChatState) : ChatState :=
  match turns with
  | [] => s
  | t :: rest => runChat rest (sendHandler t.1 t.2 s).state

/-- A successful chat interaction: the input is non-empty and the gateway
yields a truthy response text. -/
def successfulTurn (t : ChatTurn) : Prop :=
  t.2 ≠ "" ∧ ∃ r, (get_gemini_response t.1 t.2).response = some r ∧ r ≠ ""

/-- The bot response text of a turn (meaningful for successful turns). -/
def turnResponse (t : ChatTurn) : String :=
  ((get_gemini_response t.1 t.2).response).getD ""

/-! Helper lemmas. -/

lemma string_drop_zero (s : String) : s.drop 0 = s := by
  rw [String.drop_eq]
  cases s
  simp

lemma string_drop_length (s : String) : s.drop s.length = "" := by
  rw [String.drop_eq]
  cases s
  simp [String.length]

/-- Normal form of one run of the recommendations handler, by cases on which
artifacts the environment holds. -/
lemma getRecommendationsHandler_run (env : Env) (d m : String) :
    getRecommendationsHandler env d m =
      match env.csvFiles ("embedding_models/" ++ (d ++ m) ++ ".csv") with
      | none => Except.error ("FileNotFoundError: " ++ ("embedding_models/" ++ (d ++ m) ++ ".csv"))
      | some df =>
        match env.htmlFiles ("graphs/knowledge_graph_" ++ d ++ ".html") with
        | none => Except.error ("FileNotFoundError: " ++ ("graphs/knowledge_graph_" ++ d ++ ".html"))
        | some content =>
          match env.perfFiles "embedding_models/performance_metrics.csv" with
          | none => Except.error ("FileNotFoundError: " ++ "embedding_models/performance_metrics.csv")
          | some table =>
            Except.ok {
              csvPathRead := "embedding_models/" ++ (d ++ m) ++ ".csv",
              ranking_file := df,
              downloadCsvName := (d ++ m) ++ "_recommendations.csv",
              downloadCsvData := df.to_csv,
              graphPathRead := "graphs/knowledge_graph_" ++ d ++ ".html",
              embeds := [content],
              downloadHtmlName := d ++ "_knowledge_graph.html",
              downloadHtmlData := "",
              filtered_data := performanceFilter table (d ++ m),
              perfTableShown := (performanceFilter table (d ++ m)).map
                (fun row => (row.Measure, row.Value)) } := by
  simp only [getRecommendationsHandler, pdReadCsv, openTextFile, pdReadCsvSemicolon,
    final_selection, bind, Except.bind, pure, Except.pure]
  cases env.csvFiles ("embedding_models/" ++ (d ++ m) ++ ".csv") with
  | none => rfl
  | some df =>
    cases env.htmlFiles ("graphs/knowledge_graph_" ++ d ++ ".html") with
    | none => rfl
    | some content =>
      cases env.perfFiles "embedding_models/performance_metrics.csv" with
      | none => rfl
      | some table =>
        simp only [TextIOWrapper.read, marshallTextFile, string_drop_zero, string_drop_length]

/-- Normal form of one run of the explore-graph branch. -/
lemma exploreGraphHandler_run (env : Env) (d : String) :
    exploreGraphHandler env d =
      match env.htmlFiles ("graphs/knowledge_graph_" ++ d ++ ".html") with
      | none => Except.error ("FileNotFoundError: " ++ ("graphs/knowledge_graph_" ++ d ++ ".html"))
      | some content =>
        Except.ok {
          graphPathRead := "graphs/knowledge_graph_" ++ d ++ ".html",
          embeds := [content],
          downloadHtmlName := d ++ "_knowledge_graph.html",
          downloadHtmlData := "" } := by
  simp only [exploreGraphHandler, openTextFile, bind, Except.bind, pure, Except.pure]
  cases env.htmlFiles ("graphs/knowledge_graph_" ++ d ++ ".html") with
  | none => rfl
  | some content =>
    simp only [TextIOWrapper.read, marshallTextFile, string_drop_zero, string_drop_length]

/-- A successful Send interaction appends exactly the user message followed
by the bot response to the (possibly just initialized) chat history. -/
lemma sendHandler_success_state (g : String → Except String String) (inp : String)
    (s : ChatState) (h : successfulTurn (g, inp)) :
    (sendHandler g inp s).state =
      { chat_history :=
          some ((s.chat_history.getD []) ++ [("You", inp), ("Bot", turnResponse (g, inp))]) } := by
  obtain ⟨hne, r, hr, hrne⟩ := h
  unfold sendHandler
  rw [if_pos hne]
  simp only [hr, hrne, turnResponse, Option.getD_some, ne_eq, not_false_iff, if_true]

lemma runChat_history_append (turns : List ChatTurn) :
    ∀ s : ChatState, (∀ t ∈ turns, successfulTurn t) →
      (runChat turns s).chat_history.getD [] =
        (s.chat_history.getD []) ++
          turns.flatMap (fun t => [("You", t.2), ("Bot", turnResponse t)]) := by
  induction turns with
  | nil =>
    intro s _
    simp [runChat]
  | cons t rest ih =>
    intro s h
    have ht : successfulTurn t := h t (List.mem_cons_self t rest)
    have hrest : ∀ u ∈ rest, successfulTurn u := fun u hu => h u (List.mem_cons_of_mem _ hu)
    have hstep := sendHandler_success_state t.1 t.2 s ht
    show (runChat rest (sendHandler t.1 t.2 s).state).chat_history.getD [] = _
    rw [ih _ hrest, hstep]
    simp [List.append_assoc]

lemma flatMap_pair_length {α β : Type} (F G : α → β) (l : List α) :
    (l.flatMap (fun t => [F t, G t])).length = 2 * l.length := by
  induction l with
  | nil => simp
  | cons a tl ih =>
    simp only [List.flatMap_cons, List.length_append, List.length_cons, List.length_nil, ih]
    omega

lemma flatMap_pair_getElem {α β : Type} (F G : α → β) (l : List α) :
    ∀ i, i < l.length →
      (l.flatMap (fun t => [F t, G t]))[2 * i]? = (l[i]?).map F ∧
      (l.flatMap (fun t => [F t, G t]))[2 * i + 1]? = (l[i]?).map G := by
  induction l with
  | nil =>
    intro i hi
    simp at hi
  | cons a tl ih =>
    intro i hi
    cases i with
    | zero => simp [List.flatMap_cons]
    | succ j =>
      have hj : j < tl.length := by
        simp only [List.length_cons] at hi
        omega
      have h3 : 2 * (j + 1) + 1 = 2 * j + 1 + 1 + 1 := by omega
      have h2 : 2 * (j + 1) = 2 * j + 1 + 1 := by omega
      rw [h3, h2]
      simp only [List.flatMap_cons, List.cons_append, List.nil_append,
        List.getElem?_cons_succ]
      exact ih j hj

/-- A sample ranking table, used in concrete instantiations. -/
def sampleDf : DataFrame :=
  { columns := ["drug", "score", "in_clinical_trials"], rows := [["aspirin", "0.9", "no"]] }

/-- A performance row for the DengueTransE combination. -/
def samplePerfRow : PerfRow :=
  { final_selection := "DengueTransE", Measure := "MR", Value := "10" }

/-- A performance row for a different combination. -/
def otherPerfRow : PerfRow :=
  { final_selection := "ChagasTransH", Measure := "MR", Value := "12" }

/-- An artifact store holding every artifact: every CSV path parses to
`sampleDf`, the performance file holds two rows, every HTML path holds a
small graph document. -/
def fullEnv : Env :=
  { csvFiles := fun _ => some sampleDf,
    perfFiles := fun _ => some [samplePerfRow, otherPerfRow],
    htmlFiles := fun _ => some "<g>" }

/-- An artifact store with no files at all. -/
def emptyEnv : Env :=
  { csvFiles := fun _ => none, perfFiles := fun _ => none, htmlFiles := fun _ => none }

/-- C1: for every selected Disease and EmbeddingModel, the Selection
Resolver's composite key equals the exact concatenation
Disease ++ EmbeddingModel with no delimiter, computed as a pure, total
string operation with no validation; the key is used both as the CSV lookup
key (`embedding_models/<key>.csv`) and as the base name of the downloaded
recommendations file (`<key>_recommendations.csv`). -/
theorem final_selection_composite_key (disease_selection model_selection : String) :
    final_selection disease_selection model_selection = disease_selection ++ model_selection ∧
    (∀ env eff, getRecommendationsHandler env disease_selection model_selection = Except.ok eff →
      eff.csvPathRead = "embedding_models/" ++ (disease_selection ++ model_selection) ++ ".csv" ∧
      eff.downloadCsvName = (disease_selection ++ model_selection) ++ "_recommendations.csv") ∧
    (∀ env,
      env.csvFiles ("embedding_models/" ++ (disease_selection ++ model_selection) ++ ".csv")
          = none →
      getRecommendationsHandler env disease_selection model_selection =
        Except.error ("FileNotFoundError: " ++
          ("embedding_models/" ++ (disease_selection ++ model_selection) ++ ".csv"))) := by
  refine ⟨rfl, ?_, ?_⟩
  · intro env eff h
    rw [getRecommendationsHandler_run] at h
    cases hc : env.csvFiles ("embedding_models/" ++ (disease_selection ++ model_selection) ++ ".csv") with
    | none => rw [hc] at h; cases h
    | some df =>
      rw [hc] at h
      cases hh : env.htmlFiles ("graphs/knowledge_graph_" ++ disease_selection ++ ".html") with
      | none => rw [hh] at h; cases h
      | some content =>
        rw [hh] at h
        cases hp : env.perfFiles "embedding_models/performance_metrics.csv" with
        | none => rw [hp] at h; cases h
        | some table =>
          rw [hp] at h
          cases h
          exact ⟨rfl, rfl⟩
  · intro env h
    rw [getRecommendationsHandler_run, h]

/-- C1 witness: at Disease `Dengue` and Model `TransE`, the composite key is
the plain concatenation and the handler looks up exactly
`embedding_models/DengueTransE.csv`. -/
theorem final_selection_composite_key_witness :
    final_selection "Dengue" "TransE" = "Dengue" ++ "TransE" ∧
    getRecommendationsHandler emptyEnv "Dengue" "TransE" =
      Except.error ("FileNotFoundError: " ++
        ("embedding_models/" ++ ("Dengue" ++ "TransE") ++ ".csv")) :=
  ⟨(final_selection_composite_key "Dengue" "TransE").1,
   (final_selection_composite_key "Dengue" "TransE").2.2 emptyEnv rfl⟩

/-- C2 (code bug): the knowledge-graph download button is named
`<Disease>_knowledge_graph.html` as claimed, but its payload is the file
handle already exhausted by the `read()` that produced the embedded copy,
so the downloaded artifact is empty rather than the raw bytes of the loaded
graph document.  Evaluated at Disease `Dengue` with the graph document
`<g>` present. -/
theorem graph_download_payload_empty :
    fullEnv.htmlFiles "graphs/knowledge_graph_Dengue.html" = some "<g>" ∧
    ∃ eff, exploreGraphHandler fullEnv "Dengue" = Except.ok eff ∧
      eff.downloadHtmlName = "Dengue_knowledge_graph.html" ∧
      eff.embeds = ["<g>"] ∧
      eff.downloadHtmlData = "" ∧
      eff.downloadHtmlData ≠ "<g>" := by
  refine ⟨rfl, ?_⟩
  rw [exploreGraphHandler_run]
  exact ⟨_, rfl, rfl, rfl, rfl, by decide⟩

/-- C8: for every Disease value, the Explore Knowledge Graph mode reads the
file `graphs/knowledge_graph_<Disease>.html` and embeds exactly one HTML
document, namely that file's contents. -/
theorem explore_graph_loads_one_document (env : Env) (disease_selection content : String)
    (h : env.htmlFiles ("graphs/knowledge_graph_" ++ disease_selection ++ ".html")
        = some content) :
    ∃ eff, exploreGraphHandler env disease_selection = Except.ok eff ∧
      eff.graphPathRead = "graphs/knowledge_graph_" ++ disease_selection ++ ".html" ∧
      eff.embeds = [content] := by
  rw [exploreGraphHandler_run, h]
  exact ⟨_, rfl, rfl, rfl⟩

/-- C8 witness: at Disease `Dengue` with the graph document `<g>` present. -/
theorem explore_graph_loads_one_document_witness :
    ∃ eff, exploreGraphHandler fullEnv "Dengue" = Except.ok eff ∧
      eff.graphPathRead = "graphs/knowledge_graph_" ++ "Dengue" ++ ".html" ∧
      eff.embeds = ["<g>"] :=
  explore_graph_loads_one_document fullEnv "Dengue" "<g>" rfl

/-- C9: a missing ranking CSV or a missing graph HTML makes the load raise a
file-access error that no handler catches, so the error is the handler's
result and propagates to the user; and Disease `Dengue` with Model `TransE`
attempts exactly `embedding_models/DengueTransE.csv`. -/
theorem missing_artifact_error_propagates :
    (∀ env d m, env.csvFiles ("embedding_models/" ++ (d ++ m) ++ ".csv") = none →
      getRecommendationsHandler env d m =
        Except.error ("FileNotFoundError: " ++ ("embedding_models/" ++ (d ++ m) ++ ".csv"))) ∧
    (∀ env d m df, env.csvFiles ("embedding_models/" ++ (d ++ m) ++ ".csv") = some df →
      env.htmlFiles ("graphs/knowledge_graph_" ++ d ++ ".html") = none →
      getRecommendationsHandler env d m =
        Except.error ("FileNotFoundError: " ++ ("graphs/knowledge_graph_" ++ d ++ ".html"))) ∧
    (∀ env d, env.htmlFiles ("graphs/knowledge_graph_" ++ d ++ ".html") = none →
      exploreGraphHandler env d =
        Except.error ("FileNotFoundError: " ++ ("graphs/knowledge_graph_" ++ d ++ ".html"))) ∧
    "embedding_models/" ++ final_selection "Dengue" "TransE" ++ ".csv" =
      "embedding_models/DengueTransE.csv" := by
  refine ⟨?_, ?_, ?_, rfl⟩
  · intro env d m h
    rw [getRecommendationsHandler_run, h]
  · intro env d m df hc hh
    rw [getRecommendationsHandler_run, hc, hh]
  · intro env d h
    rw [exploreGraphHandler_run, h]

/-- C9 witness: with no artifacts on disk, selecting Dengue and TransE ends
in the unhandled `FileNotFoundError` for `embedding_models/DengueTransE.csv`. -/
theorem missing_artifact_error_propagates_witness :
    getRecommendationsHandler emptyEnv "Dengue" "TransE" =
      Except.error "FileNotFoundError: embedding_models/DengueTransE.csv" :=
  missing_artifact_error_propagates.1 emptyEnv "Dengue" "TransE" rfl

/-- C4: given a composite key matching the `final_selection` column of zero
rows of the performance table, the Performance Filter returns the empty
result, and the recommendations handler completes without error, rendering
the empty table. -/
theorem performance_filter_no_match_empty (env : Env) (d m : String)
    (df : DataFrame) (content : String) (table : List PerfRow)
    (hcsv : env.csvFiles ("embedding_models/" ++ (d ++ m) ++ ".csv") = some df)
    (hhtml : env.htmlFiles ("graphs/knowledge_graph_" ++ d ++ ".html") = some content)
    (hperf : env.perfFiles "embedding_models/performance_metrics.csv" = some table)
    (hnone : ∀ row ∈ table, row.final_selection ≠ d ++ m) :
    performanceFilter table (d ++ m) = [] ∧
    ∃ eff, getRecommendationsHandler env d m = Except.ok eff ∧
      eff.filtered_data = [] ∧ eff.perfTableShown = [] := by
  have hfil : performanceFilter table (d ++ m) = [] := by
    unfold performanceFilter
    rw [List.filter_eq_nil_iff]
    intro a ha
    simpa using hnone a ha
  refine ⟨hfil, ?_⟩
  rw [getRecommendationsHandler_run, hcsv, hhtml, hperf]
  exact ⟨_, rfl, hfil, by rw [hfil]; rfl⟩

/-- C4 witness: the key `DengueTransR` matches no row of the sample
performance table; the filter is empty and the handler still succeeds. -/
theorem performance_filter_no_match_empty_witness :
    performanceFilter [samplePerfRow, otherPerfRow] ("Dengue" ++ "TransR") = [] ∧
    ∃ eff, getRecommendationsHandler fullEnv "Dengue" "TransR" = Except.ok eff ∧
      eff.filtered_data = [] ∧ eff.perfTableShown = [] :=
  performance_filter_no_match_empty fullEnv "Dengue" "TransR" sampleDf "<g>"
    [samplePerfRow, otherPerfRow] rfl rfl rfl (by decide)

/-- C5: the Performance Filter returns exactly the subset of rows whose
`final_selection` column equals the composite key, preserving the original
row order of the table; in particular, if the key is present in exactly one
row, exactly that row is returned. -/
theorem performance_filter_exact_subset (table : List PerfRow) (key : String) :
    List.Sublist (performanceFilter table key) table ∧
    (∀ row, row ∈ performanceFilter table key ↔ row ∈ table ∧ row.final_selection = key) ∧
    (performanceFilter table key).length =
      table.countP (fun row => row.final_selection == key) ∧
    (∀ pre row post, table = pre ++ row :: post → row.final_selection = key →
      (∀ r ∈ pre, r.final_selection ≠ key) → (∀ r ∈ post, r.final_selection ≠ key) →
      performanceFilter table key = [row]) := by
  refine ⟨List.filter_sublist table, ?_, ?_, ?_⟩
  · intro row
    simp [performanceFilter, List.mem_filter]
  · rw [performanceFilter, List.countP_eq_length_filter]
  · intro pre row post htab hkey hpre hpost
    subst htab
    unfold performanceFilter
    rw [List.filter_append]
    have h1 : List.filter (fun r => r.final_selection == key) pre = [] := by
      rw [List.filter_eq_nil_iff]
      intro a ha
      simpa using hpre a ha
    have h2 : List.filter (fun r => r.final_selection == key) post = [] := by
      rw [List.filter_eq_nil_iff]
      intro a ha
      simpa using hpost a ha
    rw [h1, List.filter_cons_of_pos (by simpa using hkey), h2]
    rfl

/-- C5 witness: in the sample table the key `DengueTransE` occurs in exactly
the first row, and the filter returns exactly that row. -/
theorem performance_filter_exact_subset_witness :
    performanceFilter [samplePerfRow, otherPerfRow] "DengueTransE" = [samplePerfRow] :=
  (performance_filter_exact_subset [samplePerfRow, otherPerfRow] "DengueTransE").2.2.2
    [] samplePerfRow [otherPerfRow] rfl rfl (by decide) (by decide)

/-- C3: after N successful chat interactions in a session, the session chat
log holds exactly 2N entries, alternating ("You", message) / ("Bot",
response) pairs in chronological order, each successful interaction having
appended the user message followed by the bot response. -/
theorem chat_log_alternation (turns : List ChatTurn)
    (hall : ∀ t ∈ turns, successfulTurn t) :
    (runChat turns initial_session).chat_history.getD [] =
      turns.flatMap (fun t => [("You", t.2), ("Bot", turnResponse t)]) ∧
    ((runChat turns initial_session).chat_history.getD []).length = 2 * turns.length ∧
    (∀ i, i < turns.length →
      ((runChat turns initial_session).chat_history.getD [])[2 * i]? =
        (turns[i]?).map (fun t => ("You", t.2)) ∧
      ((runChat turns initial_session).chat_history.getD [])[2 * i + 1]? =
        (turns[i]?).map (fun t => ("Bot", turnResponse t))) ∧
    (∀ (s : ChatState) (t : ChatTurn), successfulTurn t →
      (sendHandler t.1 t.2 s).state.chat_history =
        some ((s.chat_history.getD []) ++ [("You", t.2), ("Bot", turnResponse t)])) := by
  have h1 : (runChat turns initial_session).chat_history.getD [] =
      turns.flatMap (fun t => [("You", t.2), ("Bot", turnResponse t)]) := by
    simpa [initial_session] using runChat_history_append turns initial_session hall
  refine ⟨h1, ?_, ?_, ?_⟩
  · rw [h1]
    exact flatMap_pair_length (fun t => ("You", t.2)) (fun t => ("Bot", turnResponse t)) turns
  · intro i hi
    rw [h1]
    exact flatMap_pair_getElem (fun t => ("You", t.2)) (fun t => ("Bot", turnResponse t))
      turns i hi
  · intro s t ht
    rw [sendHandler_success_state t.1 t.2 s ht]
    rfl

/-- C3 witness: one successful interaction leaves exactly the pair
`("You", "hi"), ("Bot", "hello")` in the log. -/
theorem chat_log_alternation_witness :
    (runChat [(fun _ => Except.ok "hello", "hi")] initial_session).chat_history.getD [] =
      [("You", "hi"), ("Bot", "hello")] := by
  have hall : ∀ t ∈ ([(fun _ => Except.ok "hello", "hi")] : List ChatTurn), successfulTurn t := by
    intro t ht
    rw [List.mem_singleton] at ht
    subst ht
    exact ⟨by decide, "hello", rfl, by decide⟩
  exact ((chat_log_alternation _ hall).1).trans (by decide)

/-- C6: when the gateway raises, `get_gemini_response` catches the
exception, emits the generic communication-error banner and returns `None`;
the Send handler then finishes normally with the session state unchanged,
so the exception never propagates. -/
theorem chat_gateway_error_caught (e input_text : String) (s : ChatState)
    (h : input_text ≠ "") :
    get_gemini_response (fun _ => Except.error e) input_text =
      { response := none,
        events := [UIEvent.error ("Error communicating with the Google Gemini API: " ++ e)],
        calls := [input_text] } ∧
    sendHandler (fun _ => Except.error e) input_text s =
      { state := s,
        events := [UIEvent.error ("Error communicating with the Google Gemini API: " ++ e),
          UIEvent.error "Failed to get a response from the chatbot"],
        gatewayCalls := [input_text] } := by
  constructor
  · unfold get_gemini_response
    rw [if_pos h]
  · simp [sendHandler, get_gemini_response, h]

/-- C6 witness: a gateway that raises `boom` on the prompt `hi`. -/
theorem chat_gateway_error_caught_witness :
    sendHandler (fun _ => Except.error "boom") "hi" initial_session =
      { state := initial_session,
        events := [UIEvent.error "Error communicating with the Google Gemini API: boom",
          UIEvent.error "Failed to get a response from the chatbot"],
        gatewayCalls := ["hi"] } :=
  (chat_gateway_error_caught "boom" "hi" initial_session (by decide)).2

/-- C7: when Send is triggered with the empty input string, no gateway call
is made (the calls trace is empty, for every gateway) and the
`Please enter a question.` message is shown instead; the state is
unchanged. -/
theorem empty_chat_input_no_gateway_call (text_model : String → Except String String)
    (s : ChatState) :
    sendHandler text_model "" s =
      { state := s,
        events := [UIEvent.error "Please enter a question."],
        gatewayCalls := [] } := by
  unfold sendHandler
  rw [if_neg (fun hc => hc rfl)]

/-- C10: a chat interaction whose input is empty or whose gateway call
yields `None` leaves the session chat log unchanged; entries are appended
only when a truthy (non-null) response was obtained, so a failed
interaction never leaves a partial user-only entry. -/
theorem chat_log_unchanged_on_failure (text_model : String → Except String String)
    (input_text : String) (s : ChatState) :
    ((input_text = "" ∨ (get_gemini_response text_model input_text).response = none) →
      (sendHandler text_model input_text s).state = s) ∧
    ((sendHandler text_model input_text s).state ≠ s →
      ∃ r, (get_gemini_response text_model input_text).response = some r ∧ r ≠ "") := by
  by_cases hin : input_text = ""
  · subst hin
    have hstate : (sendHandler text_model "" s).state = s := by
      unfold sendHandler
      rw [if_neg (fun hc => hc rfl)]
    exact ⟨fun _ => hstate, fun hne => absurd hstate hne⟩
  · cases hr : (get_gemini_response text_model input_text).response with
    | none =>
      have hstate : (sendHandler text_model input_text s).state = s := by
        unfold sendHandler
        rw [if_pos hin]
        simp only [hr]
      exact ⟨fun _ => hstate, fun hne => absurd hstate hne⟩
    | some r =>
      by_cases hrne : r = ""
      · subst hrne
        have hstate : (sendHandler text_model input_text s).state = s := by
          unfold sendHandler
          rw [if_pos hin]
          simp only [hr]
          rw [if_neg (fun hc => hc rfl)]
        exact ⟨fun _ => hstate, fun hne => absurd hstate hne⟩
      · constructor
        · intro hcase
          cases hcase with
          | inl h0 => exact absurd h0 hin
          | inr h0 => simp at h0
        · intro _
          exact ⟨r, rfl, hrne⟩

/-- C10 witness: the empty-input interaction leaves the fresh session's log
unchanged. -/
theorem chat_log_unchanged_on_failure_witness :
    (sendHandler (fun _ => Except.error "boom") "" initial_session).state = initial_session :=
  (chat_log_unchanged_on_failure (fun _ => Except.error "boom") "" initial_session).1
    (Or.inl rfl)
